import Mathlib

/-!
Verification of `src/vortex_udls/clusters_search_udl.cpp` (the
`ClustersSearchOCDPO` UDL): a per-cluster vector-search cache with an
asynchronous batched search worker.

The development shallowly embeds the handler, configuration and lifecycle
code as executable Lean functions, and the concurrent parts (the
double-checked worker start, the read/write-locked cold load, and teardown)
as small-step transition systems over explicit thread program counters,
driven by arbitrary schedules.
-/

namespace Vortex

/-- Outcome of one `ocdpo_handler` invocation; each failure constructor
corresponds to one early-`return` site in the handler. -/
inductive HandlerResult where
  | ok
  | missingClusterKey
  | coldLoadFailure
  | deserFailure
deriving DecidableEq, Repr

/-- A query batch decoded from the byte payload by
`deserialize_embeddings_and_quries_from_bytes`: `nq` query embeddings plus
their query texts. Embedding components are modelled as integers (no claim
depends on the numeric search itself). -/
structure QueryBatch where
  nq : Nat
  data : List Int
  query_list : List String
deriving DecidableEq, Repr

/-- One cluster's cache entry (`GroupedEmbeddingsForSearch`): the backend
kind and dimension it was constructed with, the embeddings filled in by
`retrieve_grouped_embeddings` (`none` until a fetch succeeds), and the
pending query batches appended by `add_queries`. -/
structure GroupedEmbeddingsForSearch where
  faiss_search_type : Int
  emb_dim : Int
  embeddings : Option (List (List Int))
  pending : List QueryBatch
deriving DecidableEq, Repr

/-- Lookup in the `cluster_search_index` map (`std::unordered_map::find`),
modelled as an association list. -/
def mapFind (m : List (Int × GroupedEmbeddingsForSearch)) (k : Int) :
    Option GroupedEmbeddingsForSearch :=
  match m with
  | [] => none
  | (k2, v) :: rest => if k2 = k then some v else mapFind rest k

/-- Insert-or-assign in the `cluster_search_index` map
(`operator[]` followed by assignment: replaces any existing value). -/
def mapSet (m : List (Int × GroupedEmbeddingsForSearch)) (k : Int)
    (v : GroupedEmbeddingsForSearch) : List (Int × GroupedEmbeddingsForSearch) :=
  match m with
  | [] => [(k, v)]
  | (k2, v2) :: rest => if k2 = k then (k, v) :: rest else (k2, v2) :: mapSet rest k v

/-- The per-process state of `ClustersSearchOCDPO` visible to the sequential
handler model: the three configurable settings, the cluster cache map, the
worker-started flag, and the list of results emitted so far (the handler
itself never emits; only the worker does). -/
structure CacheState where
  emb_dim : Int
  top_k : Nat
  faiss_search_type : Int
  cluster_search_index : List (Int × GroupedEmbeddingsForSearch)
  worker_thread_started : Bool
  emissions : List Nat
deriving DecidableEq, Repr

/-- The freshly-constructed component: built-in defaults `emb_dim = 64`,
`top_k = 4`, `faiss_search_type = 0` (CPU flat search), empty cache, worker
not yet started, nothing emitted. -/
def initialCacheState : CacheState :=
  { emb_dim := 64
    top_k := 4
    faiss_search_type := 0
    cluster_search_index := []
    worker_thread_started := false
    emissions := [] }

/-- The externally-supplied behaviour of one invocation: the result of
`parse_number` on the key string (`none` when no cluster ID is parsable),
the storage fetch `retrieve_grouped_embeddings` per cluster (`none` models
the `-1` failure sentinel), and the outcome of deserialization (`error`
models a thrown exception). -/
structure HandlerEnv where
  parsed_cluster_id : Option Int
  retrieve_grouped_embeddings : Int → Option (List (List Int))
  deserialized : Except Unit QueryBatch

/-- Lines 66-72 as seen sequentially: ensure the worker thread is started
(the concurrent double-checked start is modelled separately as a transition
system). -/
def ensure_worker_started (s : CacheState) : CacheState :=
  if s.worker_thread_started then s else { s with worker_thread_started := true }

/-- Lines 120-140 of `ocdpo_handler`: deserialize the payload; on a thrown
exception report and return; otherwise `add_queries` appends the batch to the
cluster's entry (looked up with `.at`, which is present at this point on
every path the handler reaches this code) and the condition variable is
notified. The returned Bool reports whether the storage fetch ran during
this invocation. -/
def handler_tail (env : HandlerEnv) (s : CacheState) (cluster_id : Int)
    (fetched : Bool) : CacheState × HandlerResult × Bool :=
  match env.deserialized with
  | Except.error _ => (s, HandlerResult.deserFailure, fetched)
  | Except.ok batch =>
    match mapFind s.cluster_search_index cluster_id with
    | none => (s, HandlerResult.ok, fetched) -- unreachable: the key is present here
    | some entry =>
      let updated := { entry with pending := entry.pending ++ [batch] }
      let m2 := mapSet s.cluster_search_index cluster_id updated
      ({ s with cluster_search_index := m2 }, HandlerResult.ok, fetched)

/-- Shallow embedding of `ClustersSearchOCDPO::ocdpo_handler`
(lines 58-141), sequential view. Returns the new state, the invocation
outcome, and whether `retrieve_grouped_embeddings` was invoked.

Faithful points: on a cache miss, line 105 first inserts a fresh
(unpopulated) `GroupedEmbeddingsForSearch` under the key, then line 107
runs the fetch; the failure path (lines 108-112) returns without removing
the inserted entry. -/
def ocdpo_handler (env : HandlerEnv) (s0 : CacheState) :
    CacheState × HandlerResult × Bool :=
  let s := ensure_worker_started s0
  match env.parsed_cluster_id with
  | none => (s, HandlerResult.missingClusterKey, false)
  | some cluster_id =>
    match mapFind s.cluster_search_index cluster_id with
    | some _ => handler_tail env s cluster_id false
    | none =>
      let fresh : GroupedEmbeddingsForSearch :=
        { faiss_search_type := s.faiss_search_type
          emb_dim := s.emb_dim
          embeddings := none
          pending := [] }
      let m1 := mapSet s.cluster_search_index cluster_id fresh
      let s1 := { s with cluster_search_index := m1 }
      match env.retrieve_grouped_embeddings cluster_id with
      | none => (s1, HandlerResult.coldLoadFailure, true)
      | some embs =>
        let filled := { fresh with embeddings := some embs }
        let m2 := mapSet s1.cluster_search_index cluster_id filled
        let s2 := { s1 with cluster_search_index := m2 }
        handler_tail env s2 cluster_id true

/-- A configuration value as found in the `nlohmann::json` object: either a
number or something else (a string), whose numeric `get` throws. -/
inductive JsonValue where
  | intVal (n : Int)
  | strVal (s : String)
deriving DecidableEq, Repr

/-- Lookup of a key in the configuration object
(`config.contains(key)` / `config[key]`). -/
def jsonLookup (config : List (String × JsonValue)) (key : String) :
    Option JsonValue :=
  match config with
  | [] => none
  | (k, v) :: rest => if k = key then some v else jsonLookup rest key

/-- Conversion `get<int>()`: succeeds on a number, throws (error) on a
string. -/
def json_get_int : JsonValue → Except Unit Int
  | JsonValue.intVal n => Except.ok n
  | JsonValue.strVal _ => Except.error ()

/-- Conversion `get<uint32_t>()`: succeeds on a number (reduced mod 2^32),
throws on a string. -/
def json_get_uint32 : JsonValue → Except Unit Nat
  | JsonValue.intVal n => Except.ok (Int.toNat (n % 4294967296))
  | JsonValue.strVal _ => Except.error ()

/-- Third statement of the `set_config` try block (lines 164-166): assign
`faiss_search_type` when the key is present; a conversion throw lands in the
catch, which only logs, leaving the state as it was at the throw. -/
def set_config_faiss (config : List (String × JsonValue)) (s : CacheState) :
    CacheState :=
  match jsonLookup config "faiss_search_type" with
  | none => s
  | some v =>
    match json_get_int v with
    | Except.error _ => s
    | Except.ok n => { s with faiss_search_type := n }

/-- Second statement of the try block (lines 161-163): assign `top_k` when
present; a throw skips the remaining statements (the `faiss_search_type`
assignment is not attempted). -/
def set_config_topk (config : List (String × JsonValue)) (s : CacheState) :
    CacheState :=
  match jsonLookup config "top_k" with
  | none => set_config_faiss config s
  | some v =>
    match json_get_uint32 v with
    | Except.error _ => s
    | Except.ok n => set_config_faiss config { s with top_k := n }

/-- Shallow embedding of `ClustersSearchOCDPO::set_config` (lines 155-171):
the three assignments run in order inside one try block; the first
conversion throw aborts the rest of the block, and the catch only logs, so
assignments already executed keep their effect. -/
def set_config (config : List (String × JsonValue)) (s : CacheState) :
    CacheState :=
  match jsonLookup config "emb_dim" with
  | none => set_config_topk config s
  | some v =>
    match json_get_int v with
    | Except.error _ => s
    | Except.ok n => set_config_topk config { s with emb_dim := n }

/-! ### Map lemmas -/

theorem mapFind_mapSet_self (m : List (Int × GroupedEmbeddingsForSearch))
    (k : Int) (v : GroupedEmbeddingsForSearch) :
    mapFind (mapSet m k v) k = some v := by
  induction m with
  | nil => simp [mapSet, mapFind]
  | cons hd tl ih =>
    obtain ⟨k2, v2⟩ := hd
    by_cases h : k2 = k
    · simp [mapSet, mapFind, h]
    · simp [mapSet, mapFind, h, ih]

theorem mapFind_mapSet_ne (m : List (Int × GroupedEmbeddingsForSearch))
    (k k2 : Int) (v : GroupedEmbeddingsForSearch) (h : k2 ≠ k) :
    mapFind (mapSet m k v) k2 = mapFind m k2 := by
  induction m with
  | nil => simp [mapSet, mapFind, Ne.symm h]
  | cons hd tl ih =>
    obtain ⟨k3, v3⟩ := hd
    by_cases h3 : k3 = k
    · subst h3
      simp [mapSet, mapFind, Ne.symm h]
    · simp [mapSet, mapFind, h3, ih]

/-! ### Configuration lemmas -/

theorem set_config_faiss_emb_dim (config : List (String × JsonValue))
    (s : CacheState) : (set_config_faiss config s).emb_dim = s.emb_dim := by
  unfold set_config_faiss
  repeat' split
  all_goals rfl

theorem set_config_faiss_top_k (config : List (String × JsonValue))
    (s : CacheState) : (set_config_faiss config s).top_k = s.top_k := by
  unfold set_config_faiss
  repeat' split
  all_goals rfl

theorem set_config_faiss_absent (config : List (String × JsonValue))
    (s : CacheState) (h : jsonLookup config "faiss_search_type" = none) :
    set_config_faiss config s = s := by
  unfold set_config_faiss
  rw [h]

theorem set_config_faiss_fail (config : List (String × JsonValue))
    (s : CacheState) (v : JsonValue)
    (hv : jsonLookup config "faiss_search_type" = some v)
    (hc : json_get_int v = Except.error ()) :
    set_config_faiss config s = s := by
  simp [set_config_faiss, hv, hc]

theorem set_config_topk_emb_dim (config : List (String × JsonValue))
    (s : CacheState) : (set_config_topk config s).emb_dim = s.emb_dim := by
  unfold set_config_topk
  repeat' split
  all_goals simp [set_config_faiss_emb_dim]

theorem set_config_topk_absent_top_k (config : List (String × JsonValue))
    (s : CacheState) (h : jsonLookup config "top_k" = none) :
    (set_config_topk config s).top_k = s.top_k := by
  unfold set_config_topk
  rw [h]
  exact set_config_faiss_top_k config s

theorem set_config_topk_faiss_frame (config : List (String × JsonValue))
    (s : CacheState) (h : jsonLookup config "faiss_search_type" = none) :
    (set_config_topk config s).faiss_search_type = s.faiss_search_type := by
  unfold set_config_topk
  repeat' split
  all_goals simp [set_config_faiss_absent _ _ h]

/-- C9: `set_config` only overwrites the settings whose keys are present in
the configuration object; a setting whose key is absent keeps its value, in
particular its built-in default (`emb_dim` 64, `top_k` 4,
`faiss_search_type` 0 from the fresh component), and a configuration object
containing none of the three keys changes nothing. -/
theorem set_config_only_present_keys (config : List (String × JsonValue))
    (s : CacheState) :
    (jsonLookup config "emb_dim" = none →
      (set_config config s).emb_dim = s.emb_dim) ∧
    (jsonLookup config "top_k" = none →
      (set_config config s).top_k = s.top_k) ∧
    (jsonLookup config "faiss_search_type" = none →
      (set_config config s).faiss_search_type = s.faiss_search_type) ∧
    (jsonLookup config "emb_dim" = none → jsonLookup config "top_k" = none →
      jsonLookup config "faiss_search_type" = none →
      set_config config s = s) ∧
    initialCacheState.emb_dim = 64 ∧ initialCacheState.top_k = 4 ∧
    initialCacheState.faiss_search_type = 0 := by
  refine ⟨?_, ?_, ?_, ?_, rfl, rfl, rfl⟩
  · intro h
    unfold set_config
    rw [h]
    exact set_config_topk_emb_dim config s
  · intro h
    unfold set_config
    repeat' split
    · exact set_config_topk_absent_top_k config s h
    · rfl
    · exact set_config_topk_absent_top_k config _ h
  · intro h
    unfold set_config
    repeat' split
    · exact set_config_topk_faiss_frame config s h
    · rfl
    · exact set_config_topk_faiss_frame config _ h
  · intro h1 h2 h3
    unfold set_config set_config_topk
    rw [h1, h2]
    exact set_config_faiss_absent config s h3

/-- C9 witness: the empty configuration object leaves the fresh component at
its defaults 64, 4, 0. -/
theorem set_config_only_present_keys_witness :
    set_config [] initialCacheState = initialCacheState ∧
    initialCacheState.emb_dim = 64 ∧ initialCacheState.top_k = 4 ∧
    initialCacheState.faiss_search_type = 0 := by
  have h := set_config_only_present_keys [] initialCacheState
  exact ⟨h.2.2.2.1 rfl rfl rfl, h.2.2.2.2⟩

/-- Configuration object whose `top_k` value is a string, so that its
`get<uint32_t>` conversion throws after `emb_dim` was already assigned. -/
def c8_config : List (String × JsonValue) :=
  [("emb_dim", JsonValue.intVal 128), ("top_k", JsonValue.strVal "bad")]

/-- C8 counterexample: with `{emb_dim: 128, top_k: "bad"}` the `top_k`
conversion throws, yet `emb_dim` has already been set to 128 and keeps that
value — not every setting retains its prior default after a failed
configuration call. -/
theorem set_config_failure_counterexample :
    json_get_uint32 (JsonValue.strVal "bad") = Except.error () ∧
    (set_config c8_config initialCacheState).emb_dim = 128 ∧
    (128 : Int) ≠ 64 := ⟨rfl, rfl, by decide⟩

/-- C8 amended: a conversion failure in `set_config` is non-fatal; the
setting whose value failed to convert and every setting processed after it
retain their prior values (a failure on `emb_dim` leaves the whole state
unchanged; a failure on `top_k` leaves `top_k` and `faiss_search_type`
unchanged; a failure on `faiss_search_type` leaves it unchanged), while
settings successfully converted earlier in the try block keep their new
values. -/
theorem set_config_failure_keeps_rest (config : List (String × JsonValue))
    (s : CacheState) :
    (∀ v, jsonLookup config "emb_dim" = some v →
      json_get_int v = Except.error () → set_config config s = s) ∧
    (∀ v, jsonLookup config "top_k" = some v →
      json_get_uint32 v = Except.error () →
      (set_config config s).top_k = s.top_k ∧
      (set_config config s).faiss_search_type = s.faiss_search_type) ∧
    (∀ v, jsonLookup config "faiss_search_type" = some v →
      json_get_int v = Except.error () →
      (set_config config s).faiss_search_type = s.faiss_search_type) := by
  refine ⟨?_, ?_, ?_⟩
  · intro v hv hc
    simp [set_config, hv, hc]
  · intro v hv hc
    unfold set_config set_config_topk
    repeat' split
    all_goals simp_all
  · intro v hv hc
    unfold set_config set_config_topk
    repeat' split
    all_goals simp_all [set_config_faiss_fail _ _ _ hv hc]

/-- C8 amended witness: on the concrete failing configuration the `top_k`
and `faiss_search_type` settings keep their defaults 4 and 0. -/
theorem set_config_failure_keeps_rest_witness :
    jsonLookup c8_config "top_k" = some (JsonValue.strVal "bad") ∧
    (set_config c8_config initialCacheState).top_k = 4 ∧
    (set_config c8_config initialCacheState).faiss_search_type = 0 := by
  have h := (set_config_failure_keeps_rest c8_config initialCacheState).2.1
    (JsonValue.strVal "bad") (by decide) rfl
  exact ⟨by decide, h.1, h.2⟩

/-! ### Handler frame lemmas -/

theorem ensure_worker_started_index (s : CacheState) :
    (ensure_worker_started s).cluster_search_index = s.cluster_search_index := by
  unfold ensure_worker_started
  split <;> rfl

theorem ensure_worker_started_emissions (s : CacheState) :
    (ensure_worker_started s).emissions = s.emissions := by
  unfold ensure_worker_started
  split <;> rfl

theorem ensure_worker_started_emb_dim (s : CacheState) :
    (ensure_worker_started s).emb_dim = s.emb_dim := by
  unfold ensure_worker_started
  split <;> rfl

theorem ensure_worker_started_faiss (s : CacheState) :
    (ensure_worker_started s).faiss_search_type = s.faiss_search_type := by
  unfold ensure_worker_started
  split <;> rfl

/-! ### C7: missing cluster key -/

/-- C7: an invocation whose key string contains no parsable cluster ID fails
with the missing-cluster-key report and returns with the cache map (and so
every pending queue) and the emission list exactly as before, performing no
storage fetch. -/
theorem missing_cluster_key_no_side_effects (env : HandlerEnv) (s : CacheState)
    (h : env.parsed_cluster_id = none) :
    (ocdpo_handler env s).2.1 = HandlerResult.missingClusterKey ∧
    (ocdpo_handler env s).1.cluster_search_index = s.cluster_search_index ∧
    (ocdpo_handler env s).1.emissions = s.emissions ∧
    (ocdpo_handler env s).2.2 = false := by
  refine ⟨?_, ?_, ?_, ?_⟩ <;>
    simp [ocdpo_handler, h, ensure_worker_started_index,
      ensure_worker_started_emissions]

/-- Environment of an invocation with no parsable cluster ID in the key. -/
def c7_env : HandlerEnv :=
  { parsed_cluster_id := none
    retrieve_grouped_embeddings := fun _ => none
    deserialized := Except.error () }

/-- C7 witness: the concrete unparsable-key invocation on the fresh state. -/
theorem missing_cluster_key_no_side_effects_witness :
    (ocdpo_handler c7_env initialCacheState).2.1 =
      HandlerResult.missingClusterKey ∧
    (ocdpo_handler c7_env initialCacheState).1.cluster_search_index = [] ∧
    (ocdpo_handler c7_env initialCacheState).1.emissions = [] ∧
    (ocdpo_handler c7_env initialCacheState).2.2 = false := by
  have h := missing_cluster_key_no_side_effects c7_env initialCacheState rfl
  exact ⟨h.1, h.2.1, h.2.2.1, h.2.2.2⟩

/-! ### C1 and C3: failed cold load leaves an unusable entry -/

/-- Environment of an invocation for cluster 9 whose storage fetch fails
(`retrieve_grouped_embeddings` returns the -1 sentinel) and whose payload
deserializes fine. -/
def c1_env : HandlerEnv :=
  { parsed_cluster_id := some 9
    retrieve_grouped_embeddings := fun _ => none
    deserialized := Except.ok { nq := 1, data := [0], query_list := ["q"] } }

/-- C1: the cold-load failure path contradicts the claim. After the fetch for
cluster 9 fails, the invocation is aborted with the cold-load-failure report,
but the unpopulated cluster-9 entry inserted at line 105 remains in the cache
map, and a second invocation for cluster 9 finds it, performs no storage
fetch, and even reports success, enqueuing into the unusable entry. -/
theorem failed_cold_load_leaves_entry_and_no_retry :
    (ocdpo_handler c1_env initialCacheState).2.1 =
      HandlerResult.coldLoadFailure ∧
    (ocdpo_handler c1_env initialCacheState).2.2 = true ∧
    mapFind (ocdpo_handler c1_env initialCacheState).1.cluster_search_index 9 =
      some { faiss_search_type := 0, emb_dim := 64, embeddings := none,
             pending := [] } ∧
    (ocdpo_handler c1_env (ocdpo_handler c1_env initialCacheState).1).2.2 =
      false ∧
    (ocdpo_handler c1_env (ocdpo_handler c1_env initialCacheState).1).2.1 =
      HandlerResult.ok := by
  refine ⟨rfl, rfl, ?_, ?_, ?_⟩ <;> decide

/-- Environment of an invocation for cluster 3 whose storage fetch fails. -/
def c3_env : HandlerEnv :=
  { parsed_cluster_id := some 3
    retrieve_grouped_embeddings := fun _ => none
    deserialized := Except.ok { nq := 1, data := [1], query_list := ["p"] } }

/-- C3: the visibility invariant fails on the code: one invocation from the
fresh state reaches a state in which the cache map holds an entry (cluster 3)
whose embeddings were never successfully loaded — and that map is what later
invocations and the search worker read. -/
theorem unpopulated_entry_visible_in_map :
    ∃ e, mapFind
        (ocdpo_handler c3_env initialCacheState).1.cluster_search_index 3 =
        some e ∧ e.embeddings = none :=
  ⟨{ faiss_search_type := 0, emb_dim := 64, embeddings := none, pending := [] },
   by decide, rfl⟩

/-! ### C4: deserialization failure -/

/-- Environment of an invocation for cluster 1 with a successful storage
fetch but a payload whose deserialization throws. -/
def c4_env : HandlerEnv :=
  { parsed_cluster_id := some 1
    retrieve_grouped_embeddings := fun _ => some [[5]]
    deserialized := Except.error () }

/-- C4 counterexample: a deserialization failure does not always leave the
cache map exactly as it was before the invocation began: when the same
invocation first performed a successful cold load, the new cluster-1 entry
remains in the map after the failure report. -/
theorem deser_failure_cache_changed_counterexample :
    (ocdpo_handler c4_env initialCacheState).2.1 =
      HandlerResult.deserFailure ∧
    mapFind initialCacheState.cluster_search_index 1 = none ∧
    mapFind (ocdpo_handler c4_env initialCacheState).1.cluster_search_index 1 =
      some { faiss_search_type := 0, emb_dim := 64, embeddings := some [[5]],
             pending := [] } := by
  refine ⟨rfl, rfl, ?_⟩
  decide

/-- C4 amended: when deserialization throws, the invocation is abandoned with
the deserialization-failure report, nothing is enqueued (every entry present
before the invocation keeps exactly its value, pending queue included) and
nothing is emitted; the cache map is unchanged except that, when the same
invocation cold-loaded the cluster, that single fully-populated entry with an
empty pending queue remains. -/
theorem deser_failure_no_enqueue (env : HandlerEnv) (s : CacheState)
    (cid : Int) (hp : env.parsed_cluster_id = some cid)
    (hd : env.deserialized = Except.error ())
    (hok : mapFind s.cluster_search_index cid ≠ none ∨
      env.retrieve_grouped_embeddings cid ≠ none) :
    (ocdpo_handler env s).2.1 = HandlerResult.deserFailure ∧
    (ocdpo_handler env s).1.emissions = s.emissions ∧
    (∀ k, k ≠ cid → mapFind (ocdpo_handler env s).1.cluster_search_index k =
      mapFind s.cluster_search_index k) ∧
    (∀ e, mapFind s.cluster_search_index cid = some e →
      mapFind (ocdpo_handler env s).1.cluster_search_index cid = some e) ∧
    (mapFind s.cluster_search_index cid = none →
      ∃ embs, env.retrieve_grouped_embeddings cid = some embs ∧
        mapFind (ocdpo_handler env s).1.cluster_search_index cid =
          some { faiss_search_type := s.faiss_search_type,
                 emb_dim := s.emb_dim, embeddings := some embs,
                 pending := [] }) := by
  rcases hfind : mapFind s.cluster_search_index cid with _ | e0
  · rcases hok with hne | hne
    · exact absurd hfind hne
    · rcases hfetch : env.retrieve_grouped_embeddings cid with _ | embs
      · exact absurd hfetch hne
      · refine ⟨?_, ?_, ?_, ?_, ?_⟩
        · simp [ocdpo_handler, hp, ensure_worker_started_index, hfind, hfetch,
            handler_tail, hd]
        · simp [ocdpo_handler, hp, ensure_worker_started_index, hfind, hfetch,
            handler_tail, hd, ensure_worker_started_emissions]
        · intro k hk
          simp only [ocdpo_handler, hp, ensure_worker_started_index,
            ensure_worker_started_emb_dim, ensure_worker_started_faiss, hfind,
            hfetch, handler_tail, hd]
          rw [mapFind_mapSet_ne _ _ _ _ hk, mapFind_mapSet_ne _ _ _ _ hk]
        · intro e he
          exact Option.noConfusion he
        · intro _
          refine ⟨embs, rfl, ?_⟩
          simp only [ocdpo_handler, hp, ensure_worker_started_index,
            ensure_worker_started_emb_dim, ensure_worker_started_faiss, hfind,
            hfetch, handler_tail, hd]
          rw [mapFind_mapSet_self]
  · refine ⟨?_, ?_, ?_, ?_, ?_⟩
    · simp [ocdpo_handler, hp, ensure_worker_started_index, hfind,
        handler_tail, hd]
    · simp [ocdpo_handler, hp, ensure_worker_started_index, hfind,
        handler_tail, hd, ensure_worker_started_emissions]
    · intro k _
      simp [ocdpo_handler, hp, ensure_worker_started_index, hfind,
        handler_tail, hd]
    · intro e he
      simp [ocdpo_handler, hp, ensure_worker_started_index, hfind,
        handler_tail, hd, he]
    · intro hn
      exact Option.noConfusion hn

/-- C4 amended witness: the concrete malformed-payload invocation for an
uncached cluster with a working storage fetch. -/
theorem deser_failure_no_enqueue_witness :
    c4_env.deserialized = Except.error () ∧
    (ocdpo_handler c4_env initialCacheState).2.1 =
      HandlerResult.deserFailure ∧
    (ocdpo_handler c4_env initialCacheState).1.emissions = [] := by
  have h := deser_failure_no_enqueue c4_env initialCacheState 1 rfl rfl
    (Or.inr (by decide))
  exact ⟨rfl, h.1, h.2.1⟩

/-! ### C10: teardown with no started worker -/

/-- The lifecycle fields of `ClustersSearchOCDPO` relevant to teardown: the
running flag (constructed `true`), the worker-started flag, whether
`search_worker_thread` is joinable (`std::thread` is joinable exactly when a
worker was launched on it), and whether the condition variable has been
notified. -/
structure LifecycleState where
  execution_thread_running : Bool
  worker_thread_started : Bool
  thread_joinable : Bool
  notified : Bool
deriving DecidableEq, Repr

/-- The lifecycle state of a freshly constructed component on which
`ocdpo_handler` was never invoked: running flag initialized `true`, worker
never started, default-constructed thread (not joinable). -/
def initialLifecycleState : LifecycleState :=
  { execution_thread_running := true
    worker_thread_started := false
    thread_joinable := false
    notified := false }

/-- Join on `std::thread`: well-defined only on a joinable thread (`none`
models the `std::system_error` raised otherwise). -/
def thread_join (joinable : Bool) : Option Unit :=
  if joinable then some () else none

/-- Shallow embedding of `~ClustersSearchOCDPO` (lines 41-47), sequential
view: clear the running flag, notify the condition variable, and join only
when the thread is joinable. Returns the final state and whether `join` was
invoked; `none` would mean an unguarded join fault, which the `joinable()`
guard prevents. -/
def destructor (s : LifecycleState) : Option (LifecycleState × Bool) :=
  let s1 := { s with execution_thread_running := false, notified := true }
  if s1.thread_joinable then
    match thread_join s1.thread_joinable with
    | some _ => some (s1, true)
    | none => none
  else
    some (s1, false)

/-- C10: destroying a component whose worker thread was never started (the
thread is not joinable) completes normally without invoking `join`, thanks to
the `joinable()` guard in the destructor. -/
theorem destructor_without_worker_completes (s : LifecycleState)
    (h : s.thread_joinable = false) :
    destructor s =
      some ({ s with execution_thread_running := false, notified := true },
        false) := by
  simp [destructor, h]

/-- C10 witness: tearing down the never-invoked fresh component returns
normally with no join. -/
theorem destructor_without_worker_completes_witness :
    destructor initialLifecycleState =
      some ({ execution_thread_running := false, worker_thread_started := false,
              thread_joinable := false, notified := true }, false) :=
  destructor_without_worker_completes initialLifecycleState rfl

/-! ### C5: lazy one-time worker start under concurrency -/

/-- Program counter of one handler thread inside the worker-start block of
`ocdpo_handler` (lines 65-72). -/
inductive StartPC where
  | fastCheck
  | wantMutex
  | guardedCheck
  | done
deriving DecidableEq, Repr

/-- Global state of the concurrent worker-start model: the double-checked
`worker_thread_started` flag, the owner of `search_thread_init_mutex`, the
number of times `start_search_worker` has run, and every thread's program
counter. -/
structure StartState where
  worker_thread_started : Bool
  mutex_owner : Option Nat
  start_count : Nat
  pcs : Nat → StartPC

/-- Pointwise update of one thread's program counter. -/
def updFn {α : Type} (f : Nat → α) (i : Nat) (a : α) : Nat → α :=
  fun j => if j = i then a else f j

/-- One atomic step of thread `tid` in the worker-start block: the fast
unguarded flag check (line 66), the mutex acquisition (line 67, blocked
while another thread holds it), and the guarded recheck together with the
start, flag store and mutex release (lines 68-72), which all execute while
holding the mutex. A blocked or finished thread leaves the state
unchanged. -/
def startStep (s : StartState) (tid : Nat) : StartState :=
  match s.pcs tid with
  | StartPC.fastCheck =>
    if s.worker_thread_started then
      { s with pcs := updFn s.pcs tid StartPC.done }
    else
      { s with pcs := updFn s.pcs tid StartPC.wantMutex }
  | StartPC.wantMutex =>
    match s.mutex_owner with
    | some _ => s
    | none =>
      { s with mutex_owner := some tid,
               pcs := updFn s.pcs tid StartPC.guardedCheck }
  | StartPC.guardedCheck =>
    if s.worker_thread_started then
      { s with mutex_owner := none, pcs := updFn s.pcs tid StartPC.done }
    else
      { s with worker_thread_started := true,
               start_count := s.start_count + 1,
               mutex_owner := none,
               pcs := updFn s.pcs tid StartPC.done }
  | StartPC.done => s

/-- Run an arbitrary interleaving (sequence of thread ids). -/
def runStart (sched : List Nat) (s : StartState) : StartState :=
  sched.foldl startStep s

/-- At component construction the flag is clear, the mutex free, no start
has run, and every (potential) handler thread is before the fast check. -/
def startInit : StartState :=
  { worker_thread_started := false
    mutex_owner := none
    start_count := 0
    pcs := fun _ => StartPC.fastCheck }

/-- Inductive invariant of the worker-start model: at most one start, the
flag records exactly whether a start happened, any thread past the block saw
the flag set, and the guarded section is held by the mutex owner. -/
def StartInv (s : StartState) : Prop :=
  s.start_count ≤ 1 ∧
  (s.worker_thread_started = true ↔ s.start_count = 1) ∧
  (∀ tid, s.pcs tid = StartPC.done → s.worker_thread_started = true) ∧
  (∀ tid, s.pcs tid = StartPC.guardedCheck → s.mutex_owner = some tid)

theorem startInit_inv : StartInv startInit := by
  refine ⟨by simp [startInit], by simp [startInit], ?_, ?_⟩ <;>
    exact fun tid ht => StartPC.noConfusion ht

theorem startStep_inv (s : StartState) (tid : Nat) (h : StartInv s) :
    StartInv (startStep s tid) := by
  obtain ⟨h1, h2, h3, h4⟩ := h
  unfold startStep
  split
  · -- fastCheck: the unguarded flag read
    split
    · -- flag already set: the thread proceeds without starting anything
      rename_i hflag
      refine ⟨h1, h2, fun t _ => hflag, ?_⟩
      intro t ht
      by_cases he : t = tid
      · subst he
        simp [updFn] at ht
      · simp [updFn, he] at ht
        exact h4 t ht
    · -- flag clear: the thread heads for the mutex
      refine ⟨h1, h2, ?_, ?_⟩
      · intro t ht
        by_cases he : t = tid
        · subst he
          simp [updFn] at ht
        · simp [updFn, he] at ht
          exact h3 t ht
      · intro t ht
        by_cases he : t = tid
        · subst he
          simp [updFn] at ht
        · simp [updFn, he] at ht
          exact h4 t ht
  · -- wantMutex: acquisition attempt
    split
    · -- mutex held: blocked
      exact ⟨h1, h2, h3, h4⟩
    · -- mutex free: acquire it
      rename_i howner
      refine ⟨h1, h2, ?_, ?_⟩
      · intro t ht
        by_cases he : t = tid
        · subst he
          simp [updFn] at ht
        · simp [updFn, he] at ht
          exact h3 t ht
      · intro t ht
        by_cases he : t = tid
        · subst he
          rfl
        · simp [updFn, he] at ht
          have h5 := h4 t ht
          rw [howner] at h5
          exact Option.noConfusion h5
  · -- guardedCheck: recheck under the mutex
    rename_i hpc
    have howner := h4 tid hpc
    split
    · -- flag set by another thread meanwhile: release and leave
      rename_i hflag
      refine ⟨h1, h2, fun t _ => hflag, ?_⟩
      intro t ht
      by_cases he : t = tid
      · subst he
        simp [updFn] at ht
      · simp [updFn, he] at ht
        have h5 := h4 t ht
        rw [howner] at h5
        exact absurd (Option.some.inj h5) (Ne.symm he)
    · -- flag still clear: this thread performs the one start
      rename_i hflag
      have hflag' : s.worker_thread_started = false := by
        simpa using hflag
      have hcount : s.start_count = 0 := by
        have hne : s.start_count ≠ 1 := by
          intro hc
          have h5 := h2.mpr hc
          rw [hflag'] at h5
          exact Bool.noConfusion h5
        omega
      refine ⟨?_, ?_, fun t _ => rfl, ?_⟩
      · show s.start_count + 1 ≤ 1
        omega
      · show true = true ↔ s.start_count + 1 = 1
        simp [hcount]
      · intro t ht
        by_cases he : t = tid
        · subst he
          simp [updFn] at ht
        · simp [updFn, he] at ht
          have h5 := h4 t ht
          rw [howner] at h5
          exact absurd (Option.some.inj h5) (Ne.symm he)
  · -- done: no step
    exact ⟨h1, h2, h3, h4⟩

theorem runStart_inv (sched : List Nat) (s : StartState) (h : StartInv s) :
    StartInv (runStart sched s) := by
  induction sched generalizing s with
  | nil => exact h
  | cons tid rest ih => exact ih (startStep s tid) (startStep_inv s tid h)

/-- C5: the search worker is started lazily exactly once. At construction no
start has run and the flag is clear; under every interleaving of any number
of concurrent handler threads executing the double-checked start block,
`start_search_worker` runs at most once, and every thread that has passed
the block (proceeding to the rest of its invocation) observes the flag set
with exactly one start performed. -/
theorem worker_started_lazily_exactly_once (sched : List Nat) :
    startInit.start_count = 0 ∧
    startInit.worker_thread_started = false ∧
    (runStart sched startInit).start_count ≤ 1 ∧
    (∀ tid, (runStart sched startInit).pcs tid = StartPC.done →
      (runStart sched startInit).worker_thread_started = true ∧
      (runStart sched startInit).start_count = 1) := by
  obtain ⟨h1, h2, h3, _⟩ := runStart_inv sched startInit startInit_inv
  exact ⟨rfl, rfl, h1, fun tid ht => ⟨h3 tid ht, h2.mp (h3 tid ht)⟩⟩

/-- C5 witness: one thread running the block to completion has started the
worker exactly once and set the flag. -/
theorem worker_started_lazily_exactly_once_witness :
    (runStart [0, 0, 0] startInit).worker_thread_started = true ∧
    (runStart [0, 0, 0] startInit).start_count = 1 := by
  exact (worker_started_lazily_exactly_once [0, 0, 0]).2.2.2 0 rfl

/-! ### C2: concurrent cold loads of the same cluster -/

/-- Program counter of one handler thread in the cache-lookup/cold-load
section of `ocdpo_handler` (lines 94-118), for threads all referencing the
same uncached cluster whose fetch succeeds. -/
inductive CachePC where
  | tryReadLock
  | readCheck
  | wantWriteLock
  | coldLoad
  | done
deriving DecidableEq, Repr

/-- Global state of the concurrent cold-load model: the
`cluster_search_index_map_mutex` shared mutex (reader count plus writer
flag), the cache map, the number of `retrieve_grouped_embeddings`
executions, and every thread's program counter. -/
structure RaceState where
  readers : Nat
  writer_held : Bool
  cluster_search_index : List (Int × GroupedEmbeddingsForSearch)
  fetch_count : Nat
  pcs : Nat → CachePC

/-- One atomic step of thread `tid`, every thread handling the same cluster
`cid` whose stored embeddings are `embs`:
line 95 — `shared_lock` acquisition, blocked while a writer holds the lock;
lines 96-101 — `find` under the shared lock, then release (on a miss via
the explicit `read_lock.unlock()`, on a hit at the end of the block);
line 102 — `unique_lock` acquisition, blocked while any reader or writer
holds the lock;
lines 105-118, all while holding the exclusive lock — insert the fresh
entry (line 105; the code performs no recheck of the map after the lock
upgrade), run the counted fetch which fills the entry (line 107), release
at the end of the block. A blocked or finished thread leaves the state
unchanged. -/
def raceStep (cid : Int) (embs : List (List Int)) (s : RaceState)
    (tid : Nat) : RaceState :=
  match s.pcs tid with
  | CachePC.tryReadLock =>
    if s.writer_held then s
    else { s with readers := s.readers + 1,
                  pcs := updFn s.pcs tid CachePC.readCheck }
  | CachePC.readCheck =>
    match mapFind s.cluster_search_index cid with
    | some _ =>
      { s with readers := s.readers - 1,
               pcs := updFn s.pcs tid CachePC.done }
    | none =>
      { s with readers := s.readers - 1,
               pcs := updFn s.pcs tid CachePC.wantWriteLock }
  | CachePC.wantWriteLock =>
    if s.writer_held ∨ s.readers ≠ 0 then s
    else { s with writer_held := true,
                  pcs := updFn s.pcs tid CachePC.coldLoad }
  | CachePC.coldLoad =>
    let fresh : GroupedEmbeddingsForSearch :=
      { faiss_search_type := 0, emb_dim := 64, embeddings := none,
        pending := [] }
    let m1 := mapSet s.cluster_search_index cid fresh
    let filled := { fresh with embeddings := some embs }
    let m2 := mapSet m1 cid filled
    { s with cluster_search_index := m2,
             fetch_count := s.fetch_count + 1,
             writer_held := false,
             pcs := updFn s.pcs tid CachePC.done }
  | CachePC.done => s

def runRace (cid : Int) (embs : List (List Int)) (sched : List Nat)
    (s : RaceState) : RaceState :=
  sched.foldl (raceStep cid embs) s

/-- All threads begin at the shared-lock acquisition over the empty cache,
lock free. -/
def raceInit : RaceState :=
  { readers := 0
    writer_held := false
    cluster_search_index := []
    fetch_count := 0
    pcs := fun _ => CachePC.tryReadLock }

/-- C2: the storage fetch is NOT executed exactly once. With two threads
racing on the same uncached cluster 5, the interleaving in which both pass
the shared-lock miss check before either acquires the exclusive lock makes
both run the cold load — the code never rechecks the map after the lock
upgrade — so `retrieve_grouped_embeddings` executes twice (and the second
insert at line 105 replaces the first entry). Both threads run to
completion and release the lock. -/
theorem concurrent_cold_load_fetches_twice :
    (runRace 5 [[1]] [0, 0, 1, 1, 0, 0, 1, 1] raceInit).fetch_count = 2 ∧
    (runRace 5 [[1]] [0, 0, 1, 1, 0, 0, 1, 1] raceInit).pcs 0 = CachePC.done ∧
    (runRace 5 [[1]] [0, 0, 1, 1, 0, 0, 1, 1] raceInit).pcs 1 = CachePC.done ∧
    (runRace 5 [[1]] [0, 0, 1, 1, 0, 0, 1, 1] raceInit).writer_held = false ∧
    (2 : Nat) ≠ 1 := by
  refine ⟨?_, ?_, ?_, ?_, ?_⟩ <;> decide

/-! ### C6: graceful teardown -/

/-- Program counter of the background search worker.
Modelled from the spec: the worker loop body
(`ClusterSearchWorker::search_and_emit`, defined in `search_worker.hpp`) is
not part of this source file; per spec §4.3 the worker repeatedly checks
the shutdown flag, scans and searches cached clusters (accessing the shared
cache state), blocks on the condition variable when idle, and exits once
the running flag is observed clear. -/
inductive WorkerPC where
  | checkFlag
  | scanning
  | waiting
  | exited
deriving DecidableEq, Repr

/-- Program counter of the destructor thread (lines 41-47): clear
`execution_thread_running` (line 42), `notify_all` (line 43), `join`
(lines 44-46, blocked until the worker has exited), and returned. -/
inductive DtorPC where
  | clearFlag
  | notifyAll
  | joinWait
  | returned
deriving DecidableEq, Repr

/-- Joint state of the worker and the destructor during teardown; the
worker's cache accesses are counted. -/
structure TeardownState where
  execution_thread_running : Bool
  notified : Bool
  cache_accesses : Nat
  worker_pc : WorkerPC
  dtor_pc : DtorPC
deriving DecidableEq, Repr

/-- One atomic step: `tid = 0` advances the worker, `tid = 1` the
destructor; other ids do nothing. The worker's scan accesses the shared
cache (counted); its wait blocks until notified or shutdown. The
destructor's join blocks until the worker has exited. -/
def teardownStep (s : TeardownState) (tid : Nat) : TeardownState :=
  if tid = 0 then
    match s.worker_pc with
    | WorkerPC.checkFlag =>
      if s.execution_thread_running then
        { s with worker_pc := WorkerPC.scanning }
      else { s with worker_pc := WorkerPC.exited }
    | WorkerPC.scanning =>
      { s with cache_accesses := s.cache_accesses + 1,
               worker_pc := WorkerPC.waiting }
    | WorkerPC.waiting =>
      if s.notified ∨ s.execution_thread_running = false then
        { s with worker_pc := WorkerPC.checkFlag }
      else s
    | WorkerPC.exited => s
  else if tid = 1 then
    match s.dtor_pc with
    | DtorPC.clearFlag =>
      { s with execution_thread_running := false,
               dtor_pc := DtorPC.notifyAll }
    | DtorPC.notifyAll =>
      { s with notified := true, dtor_pc := DtorPC.joinWait }
    | DtorPC.joinWait =>
      if s.worker_pc = WorkerPC.exited then
        { s with dtor_pc := DtorPC.returned }
      else s
    | DtorPC.returned => s
  else s

def runTeardown (sched : List Nat) (s : TeardownState) : TeardownState :=
  sched.foldl teardownStep s

/-- Teardown begins with the worker running its loop and the destructor
about to clear the flag. -/
def teardownInit : TeardownState :=
  { execution_thread_running := true
    notified := false
    cache_accesses := 0
    worker_pc := WorkerPC.checkFlag
    dtor_pc := DtorPC.clearFlag }

/-- Inductive invariant of the teardown model: destructor progress implies
the flag was cleared, join-or-later implies the notify happened, and a
returned destructor implies the worker has exited. -/
def TeardownInv (s : TeardownState) : Prop :=
  (s.dtor_pc ≠ DtorPC.clearFlag → s.execution_thread_running = false) ∧
  ((s.dtor_pc = DtorPC.joinWait ∨ s.dtor_pc = DtorPC.returned) →
    s.notified = true) ∧
  (s.dtor_pc = DtorPC.returned → s.worker_pc = WorkerPC.exited)

theorem teardownInit_inv : TeardownInv teardownInit := by
  refine ⟨fun h => absurd rfl h, fun h => ?_, fun h => ?_⟩ <;>
    simp [teardownInit] at h

theorem teardownStep_inv (s : TeardownState) (tid : Nat)
    (h : TeardownInv s) : TeardownInv (teardownStep s tid) := by
  obtain ⟨h1, h2, h3⟩ := h
  unfold teardownStep
  split
  · -- tid 0: the worker moves
    split
    · -- checkFlag
      split
      · -- still running: enter the scan
        refine ⟨h1, h2, fun hd => ?_⟩
        rename_i hw _
        have h5 := h3 hd
        rw [hw] at h5
        exact WorkerPC.noConfusion h5
      · -- shutdown observed: exit
        exact ⟨h1, h2, fun _ => rfl⟩
    · -- scanning: one cache-touching pass, then wait
      rename_i hw
      refine ⟨h1, h2, fun hd => ?_⟩
      have h5 := h3 hd
      rw [hw] at h5
      exact WorkerPC.noConfusion h5
    · -- waiting
      split
      · -- woken (notify or shutdown): back to the flag check
        refine ⟨h1, h2, fun hd => ?_⟩
        rename_i hw _
        have h5 := h3 hd
        rw [hw] at h5
        exact WorkerPC.noConfusion h5
      · -- still asleep
        exact ⟨h1, h2, h3⟩
    · -- exited: no step
      exact ⟨h1, h2, h3⟩
  · -- tid not 0
    split
    · -- tid 1: the destructor moves
      split
      · -- clearFlag
        refine ⟨fun _ => rfl, fun hc => ?_, fun hc => ?_⟩
        · rcases hc with hc | hc <;> exact DtorPC.noConfusion hc
        · exact DtorPC.noConfusion hc
      · -- notifyAll
        rename_i hd
        refine ⟨fun _ => ?_, fun _ => rfl, fun hc => ?_⟩
        · exact h1 (by rw [hd]; exact fun hc => DtorPC.noConfusion hc)
        · exact DtorPC.noConfusion hc
      · -- joinWait
        rename_i hd
        split
        · -- worker has exited: join returns
          rename_i hwx
          exact ⟨fun _ => h1 (by rw [hd]; exact fun hc => DtorPC.noConfusion hc),
            fun _ => h2 (Or.inl hd), fun _ => hwx⟩
        · -- worker still running: join blocks
          exact ⟨h1, h2, h3⟩
      · -- returned: no step
        exact ⟨h1, h2, h3⟩
    · -- other ids: no thread
      exact ⟨h1, h2, h3⟩

theorem runTeardown_inv (sched : List Nat) (s : TeardownState)
    (h : TeardownInv s) : TeardownInv (runTeardown sched s) := by
  induction sched generalizing s with
  | nil => exact h
  | cons tid rest ih => exact ih (teardownStep s tid) (teardownStep_inv s tid h)

theorem teardownStep_frozen (s : TeardownState) (tid : Nat)
    (hd : s.dtor_pc = DtorPC.returned) (hw : s.worker_pc = WorkerPC.exited) :
    teardownStep s tid = s := by
  unfold teardownStep
  by_cases ht0 : tid = 0
  · simp [ht0, hw]
  · by_cases ht1 : tid = 1
    · simp [ht0, ht1, hd]
    · simp [ht0, ht1]

theorem runTeardown_frozen (sched : List Nat) (s : TeardownState)
    (hd : s.dtor_pc = DtorPC.returned) (hw : s.worker_pc = WorkerPC.exited) :
    runTeardown sched s = s := by
  induction sched with
  | nil => rfl
  | cons tid rest ih =>
    show runTeardown rest (teardownStep s tid) = s
    rw [teardownStep_frozen s tid hd hw]
    exact ih

/-- C6: in every interleaving of the worker with the destructor (including
those where teardown begins while the worker is mid-search), once the
destructor has returned the shutdown flag is cleared, the condition variable
was notified, the worker thread has fully exited (join returned only after
that), and no step of any further schedule changes the state — in
particular no access to the shared cache state occurs after teardown
returns. -/
theorem teardown_joins_before_return (sched1 sched2 : List Nat)
    (hret : (runTeardown sched1 teardownInit).dtor_pc = DtorPC.returned) :
    (runTeardown sched1 teardownInit).execution_thread_running = false ∧
    (runTeardown sched1 teardownInit).notified = true ∧
    (runTeardown sched1 teardownInit).worker_pc = WorkerPC.exited ∧
    runTeardown sched2 (runTeardown sched1 teardownInit) =
      runTeardown sched1 teardownInit := by
  obtain ⟨h1, h2, h3⟩ := runTeardown_inv sched1 teardownInit teardownInit_inv
  exact ⟨h1 (by simp [hret]), h2 (Or.inr hret), h3 hret,
    runTeardown_frozen sched2 _ hret (h3 hret)⟩

/-- C6 witness: the destructor clears the flag and notifies, the worker
wakes and exits, join returns; a further schedule touching both threads
changes nothing. -/
theorem teardown_joins_before_return_witness :
    (runTeardown [1, 1, 0, 1] teardownInit).worker_pc = WorkerPC.exited ∧
    runTeardown [0, 1, 0] (runTeardown [1, 1, 0, 1] teardownInit) =
      runTeardown [1, 1, 0, 1] teardownInit := by
  have h := teardown_joins_before_return [1, 1, 0, 1] [0, 1, 0] (by decide)
  exact ⟨h.2.2.1, h.2.2.2⟩

end Vortex
